import Mathlib

/-!
# Verification development for the NCC-1701-D game simulation core

Shallow embedding of the TypeScript simulation core (combat system, ship
controller, weapon system, enemy AI) into Lean 4, together with theorems
settling the specification claims.

Modelling conventions:
* TypeScript `number` values are embedded as exact rationals (`ℚ`): the
  claims under scrutiny are about the exact arithmetic the source spells
  out, not about IEEE-754 rounding.
* Transcendental library calls (`Math.sin`, `Math.cos`, square roots inside
  `Vector3.length`/`normalize`, quaternion `slerp`/`lookAt`) are not rational
  functions; they are passed in as oracle parameters.  Theorems that depend
  on a length being correct carry the defining hypothesis
  `0 ≤ d ∧ d * d = normSq v` for the oracle's answer at the one point used.
* Purely visual state (meshes, materials, scene-graph groups, beam opacity)
  is elided; each elided piece is noted at the corresponding definition.
* In-place mutation in the source becomes state-passing: each embedded
  function returns the updated record(s).
-/

namespace Enterprise

/-- 3D vector over exact rationals (three.js `Vector3`). -/
structure Vec3 where
  x : ℚ
  y : ℚ
  z : ℚ
  deriving DecidableEq, Repr

/-- Quaternion over exact rationals (three.js `Quaternion`, `(x, y, z, w)`). -/
structure Quat where
  x : ℚ
  y : ℚ
  z : ℚ
  w : ℚ
  deriving DecidableEq, Repr

namespace Vec3

/-- Componentwise subtraction (`Vector3.subVectors`). -/
def vsub (a b : Vec3) : Vec3 := ⟨a.x - b.x, a.y - b.y, a.z - b.z⟩

/-- Componentwise addition (`Vector3.add`). -/
def vadd (a b : Vec3) : Vec3 := ⟨a.x + b.x, a.y + b.y, a.z + b.z⟩

/-- Scalar multiple (`Vector3.multiplyScalar`). -/
def smul (k : ℚ) (v : Vec3) : Vec3 := ⟨k * v.x, k * v.y, k * v.z⟩

/-- Dot product (`Vector3.dot`). -/
def dot (a b : Vec3) : ℚ := a.x * b.x + a.y * b.y + a.z * b.z

/-- Squared length (`Vector3.lengthSq`). -/
def normSq (v : Vec3) : ℚ := v.x * v.x + v.y * v.y + v.z * v.z

/-- `Vector3.normalize` given the (externally supplied) length `len` of `v`.
three.js divides by `this.length() || 1`, so a zero length divides by 1. -/
def normalizeWith (len : ℚ) (v : Vec3) : Vec3 :=
  if len = 0 then v else smul (1 / len) v

/-- `Vector3.applyQuaternion` — three.js formula
`t = 2 * cross(q.xyz, v)`, `v' = v + q.w * t + cross(q.xyz, t)`. -/
def applyQuaternion (v : Vec3) (q : Quat) : Vec3 :=
  let tx := 2 * (q.y * v.z - q.z * v.y)
  let ty := 2 * (q.z * v.x - q.x * v.z)
  let tz := 2 * (q.x * v.y - q.y * v.x)
  ⟨v.x + q.w * tx + q.y * tz - q.z * ty,
   v.y + q.w * ty + q.z * tx - q.x * tz,
   v.z + q.w * tz + q.x * ty - q.y * tx⟩

end Vec3

namespace Quat

/-- Identity quaternion (`new THREE.Quaternion()`). -/
def identity : Quat := ⟨0, 0, 0, 1⟩

/-- Hamilton product (`Quaternion.multiplyQuaternions a b`). -/
def mul (a b : Quat) : Quat :=
  ⟨a.x * b.w + a.w * b.x + a.y * b.z - a.z * b.y,
   a.y * b.w + a.w * b.y + a.z * b.x - a.x * b.z,
   a.z * b.w + a.w * b.z + a.x * b.y - a.y * b.x,
   a.w * b.w - a.x * b.x - a.y * b.y - a.z * b.z⟩

/-- `Quaternion.setFromAxisAngle` given oracle values `s = sin(angle/2)` and
`c = cos(angle/2)`. -/
def fromAxisAngle (axis : Vec3) (s c : ℚ) : Quat :=
  ⟨axis.x * s, axis.y * s, axis.z * s, c⟩

/-- `Quaternion.normalize` given the (externally supplied) length `len`:
a zero length resets to the identity, otherwise divide by the length. -/
def normalizeWith (len : ℚ) (q : Quat) : Quat :=
  if len = 0 then ⟨0, 0, 0, 1⟩
  else ⟨q.x / len, q.y / len, q.z / len, q.w / len⟩

end Quat

-- ─── Combat & damage system (src/game/combat-system.ts) ──────────────────────

/-- `SHIELD_ABSORPTION` — shields absorb 70% of damage. -/
def shieldAbsorption : ℚ := 7 / 10

/-- `PHASER_DPS` — damage per second while the player's beam is hitting. -/
def phaserDps : ℚ := 8

/-- `TORPEDO_DAMAGE` — single player torpedo hit damage. -/
def torpedoDamage : ℚ := 18

/-- `ShipHealth` from combat-system.ts. -/
structure ShipHealth where
  hull : ℚ
  maxHull : ℚ
  shieldsUp : Bool
  shieldStrength : ℚ
  isDestroyed : Bool
  /-- Visual damage flash timer (decays to 0). -/
  damageFlash : ℚ
  deriving DecidableEq, Repr

/-- Game outcome values of `CombatState.gameOver` (`'victory' | 'defeat'`). -/
inductive Outcome where
  | victory
  | defeat
  deriving DecidableEq, Repr

/-- `CombatState` from combat-system.ts; `gameOver = none` models `null`. -/
structure CombatState where
  playerHealth : ShipHealth
  enemyHealth : ShipHealth
  gameOver : Option Outcome
  deriving DecidableEq, Repr

/-- `createShipHealth(maxHull)`. -/
def createShipHealth (maxHull : ℚ) : ShipHealth :=
  { hull := maxHull
    maxHull := maxHull
    shieldsUp := false
    shieldStrength := 100
    isDestroyed := false
    damageFlash := 0 }

/-- `createCombatState()`. -/
def createCombatState : CombatState :=
  { playerHealth := createShipHealth 100
    enemyHealth := createShipHealth 100
    gameOver := none }

/-- `applyDamage(health, rawDamage)` — apply raw damage to a ship,
accounting for shields.  Mutation becomes returning the updated record;
each field of the result is the value the source's sequence of in-place
assignments leaves it with:
* in the shielded branch (`shieldsUp && shieldStrength > 0`) the shield
  strength drops by `absorbed * 0.5` (floored at 0), shields auto-drop if
  the updated strength is ≤ 0, and the effective damage is reduced;
* the hull takes the effective damage, floored at 0;
* `damageFlash` is reset to 1.0, and hull ≤ 0 marks the ship destroyed. -/
def applyDamage (health : ShipHealth) (rawDamage : ℚ) : ShipHealth :=
  if health.isDestroyed then health
  else
    let shielded := health.shieldsUp ∧ health.shieldStrength > 0
    let absorbed := rawDamage * shieldAbsorption
    let newStrength :=
      if shielded then max 0 (health.shieldStrength - absorbed * (1 / 2))
      else health.shieldStrength
    let newShieldsUp :=
      if shielded ∧ newStrength ≤ 0 then false else health.shieldsUp
    let effectiveDamage := if shielded then rawDamage - absorbed else rawDamage
    let newHull := max 0 (health.hull - effectiveDamage)
    { health with
        hull := newHull
        shieldStrength := newStrength
        shieldsUp := newShieldsUp
        damageFlash := 1
        isDestroyed := if newHull ≤ 0 then true else health.isDestroyed }

/-- `updateCombatTimers(combat, delta)` — decay damage-flash timers and run
the per-frame win/lose check (`if (!combat.gameOver)`). -/
def updateCombatTimers (combat : CombatState) (delta : ℚ) : CombatState :=
  let ph :=
    if combat.playerHealth.damageFlash > 0 then
      { combat.playerHealth with
          damageFlash := max 0 (combat.playerHealth.damageFlash - 3 * delta) }
    else combat.playerHealth
  let eh :=
    if combat.enemyHealth.damageFlash > 0 then
      { combat.enemyHealth with
          damageFlash := max 0 (combat.enemyHealth.damageFlash - 3 * delta) }
    else combat.enemyHealth
  let go :=
    if combat.gameOver = none then
      if eh.isDestroyed then some Outcome.victory
      else if ph.isDestroyed then some Outcome.defeat
      else none
    else combat.gameOver
  { playerHealth := ph, enemyHealth := eh, gameOver := go }

/-- One atomic combat-state event: damage to one side, or a timer tick. -/
inductive CombatOp where
  | damagePlayer (raw : ℚ)
  | damageEnemy (raw : ℚ)
  | tick (delta : ℚ)
  deriving DecidableEq, Repr

/-- Apply one combat event to a `CombatState`. -/
def combatStep (op : CombatOp) (s : CombatState) : CombatState :=
  match op with
  | .damagePlayer raw => { s with playerHealth := applyDamage s.playerHealth raw }
  | .damageEnemy raw => { s with enemyHealth := applyDamage s.enemyHealth raw }
  | .tick delta => updateCombatTimers s delta

/-- Run a sequence of combat events left to right. -/
def runCombat (s : CombatState) : List CombatOp → CombatState
  | [] => s
  | op :: ops => runCombat (combatStep op s) ops

-- ─── Player game state (src/game/game-state.ts) ──────────────────────────────

/-- `GameState` from game-state.ts.  The derived display fields
(`heading`, `bearing`, `speedDisplay`) are updated only by
`updateDerivedState` (not embedded here) and are omitted. -/
structure GameState where
  position : Vec3
  quaternion : Quat
  velocity : Vec3
  throttle : ℚ
  speed : ℚ
  isWarp : Bool
  shieldsActive : Bool
  shieldStrength : ℚ
  phaserCharge : ℚ
  torpedoCount : ℚ
  phaserFiring : Bool
  torpedoFiring : Bool
  deriving DecidableEq, Repr

/-- `INITIAL_TORPEDO_COUNT`. -/
def initialTorpedoCount : ℚ := 64

/-- `createGameState()` (transform fields at their initial values). -/
def createGameState : GameState :=
  { position := ⟨0, 0, 0⟩
    quaternion := Quat.identity
    velocity := ⟨0, 0, 0⟩
    throttle := 0
    speed := 0
    isWarp := false
    shieldsActive := false
    shieldStrength := 100
    phaserCharge := 100
    torpedoCount := initialTorpedoCount
    phaserFiring := false
    torpedoFiring := false }

-- ─── Input manager (src/game/input-manager.ts) ───────────────────────────────

/-- One frame's snapshot of the `InputManager` queries.  `wasJustPressed` is
self-clearing in the source, but every key code is queried at most once per
embedded update, so a per-frame snapshot is faithful. -/
structure Input where
  isPressed : String → Bool
  wasJustPressed : String → Bool

/-- The all-keys-up input frame. -/
def Input.idle : Input := ⟨fun _ => false, fun _ => false⟩

-- ─── Ship controller (src/game/ship-controller.ts) ───────────────────────────

/-- Oracle for the transcendental library calls of the ship controller:
`Math.sin`, `Math.cos` (axis-angle quaternions) and the square root inside
`Quaternion.normalize`.  The claims proved below hold for every oracle. -/
structure TransOracle where
  sin : ℚ → ℚ
  cos : ℚ → ℚ
  sqrt : ℚ → ℚ

/-- The constantly-zero oracle (used for concrete witnesses). -/
def TransOracle.zero : TransOracle := ⟨fun _ => 0, fun _ => 0, fun _ => 0⟩

/-- `PITCH_SPEED` (rad/s). -/
def pitchSpeed : ℚ := 4 / 5

/-- `YAW_SPEED` (rad/s). -/
def yawSpeed : ℚ := 4 / 5

/-- `ROLL_SPEED` (rad/s). -/
def rollSpeed : ℚ := 1

/-- `IMPULSE_MAX_SPEED`. -/
def impulseMaxSpeed : ℚ := 1

/-- `WARP_MULTIPLIER`. -/
def warpMultiplier : ℚ := 8

/-- `MOVEMENT_SCALE` (world units per second at speed 1). -/
def movementScale : ℚ := 15

/-- `PHASER_RECHARGE` (charge per second). -/
def phaserRecharge : ℚ := 10

/-- Rotation section of `updateShip`: WASDQE axis deltas composed onto the
orientation quaternion (pitch, then yaw, then roll), then renormalized.
Sequential `if` assignments make the later key win when both are held. -/
def shipRotationStep (orc : TransOracle) (state : GameState) (input : Input)
    (delta : ℚ) : GameState :=
  let pitchDelta : ℚ :=
    if input.isPressed "KeyW" then -pitchSpeed * delta
    else if input.isPressed "KeyS" then pitchSpeed * delta
    else 0
  let yawDelta : ℚ :=
    if input.isPressed "KeyE" then -yawSpeed * delta
    else if input.isPressed "KeyQ" then yawSpeed * delta
    else 0
  let rollDelta : ℚ :=
    if input.isPressed "KeyD" then -rollSpeed * delta
    else if input.isPressed "KeyA" then rollSpeed * delta
    else 0
  let q := state.quaternion
  let q :=
    if pitchDelta ≠ 0 then
      q.mul (Quat.fromAxisAngle ⟨1, 0, 0⟩ (orc.sin (pitchDelta / 2)) (orc.cos (pitchDelta / 2)))
    else q
  let q :=
    if yawDelta ≠ 0 then
      q.mul (Quat.fromAxisAngle ⟨0, 1, 0⟩ (orc.sin (yawDelta / 2)) (orc.cos (yawDelta / 2)))
    else q
  let q :=
    if rollDelta ≠ 0 then
      q.mul (Quat.fromAxisAngle ⟨0, 0, 1⟩ (orc.sin (rollDelta / 2)) (orc.cos (rollDelta / 2)))
    else q
  let q := Quat.normalizeWith (orc.sqrt (q.x * q.x + q.y * q.y + q.z * q.z + q.w * q.w)) q
  { state with quaternion := q }

/-- `Digit0` … `Digit9` key codes. -/
def digitKey (d : ℕ) : String := "Digit" ++ toString d

/-- Throttle section of `updateShip`: direct-set throttle from digit keys
(`d = 0 → 0`, otherwise `d / 9`); later digits override earlier ones. -/
def shipThrottleStep (state : GameState) (input : Input) : GameState :=
  let t := (List.range 10).foldl
    (fun acc d =>
      if input.wasJustPressed (digitKey d) then
        if d = 0 then 0 else (d : ℚ) / 9
      else acc)
    state.throttle
  { state with throttle := t }

/-- Warp section of `updateShip`: edge-triggered CapsLock toggle (engage
only from `¬isWarp` with `throttle > 0.1`), then the per-frame
auto-disengage when `throttle ≤ 0.05`. -/
def shipWarpStep (state : GameState) (input : Input) : GameState :=
  let state :=
    if input.wasJustPressed "CapsLock" then
      if ¬state.isWarp ∧ state.throttle > 1 / 10 then { state with isWarp := true }
      else { state with isWarp := false }
    else state
  if state.isWarp ∧ state.throttle ≤ 1 / 20 then { state with isWarp := false }
  else state

/-- Speed section of `updateShip`: rate-limited approach (2.5 units/s) of
`speed` toward `throttle × impulse-max`, times the warp multiplier when
warping. -/
def shipSpeedStep (state : GameState) (delta : ℚ) : GameState :=
  let targetSpeed := state.throttle * impulseMaxSpeed
  let effectiveTarget := if state.isWarp then targetSpeed * warpMultiplier else targetSpeed
  let accelRate : ℚ := 5 / 2
  if state.speed < effectiveTarget then
    { state with speed := min effectiveTarget (state.speed + accelRate * delta) }
  else if state.speed > effectiveTarget then
    { state with speed := max effectiveTarget (state.speed - accelRate * delta) }
  else state

/-- Position section of `updateShip`: forward is local `(0, 0, -1)`
transformed by the orientation; integrate velocity into position. -/
def shipPositionStep (state : GameState) (delta : ℚ) : GameState :=
  let forward := Vec3.applyQuaternion ⟨0, 0, -1⟩ state.quaternion
  let velocity := Vec3.smul (state.speed * movementScale) forward
  { state with
      velocity := velocity
      position := state.position.vadd (Vec3.smul delta velocity) }

/-- Weapons section of `updateShip`: phaser recharge, held-key phaser fire
intent gated on charge > 5, edge-triggered torpedo fire intent gated on
ammo > 0. -/
def shipWeaponsStep (state : GameState) (input : Input) (delta : ℚ) : GameState :=
  let state :=
    if state.phaserCharge < 100 then
      { state with phaserCharge := min 100 (state.phaserCharge + phaserRecharge * delta) }
    else state
  let state :=
    { state with phaserFiring := input.isPressed "Space" ∧ state.phaserCharge > 5 }
  { state with torpedoFiring := input.wasJustPressed "KeyT" ∧ state.torpedoCount > 0 }

/-- Shields section of `updateShip`: edge-triggered toggle (KeyX), slow
drain while active, force-deactivate at zero strength. -/
def shipShieldsStep (state : GameState) (input : Input) (delta : ℚ) : GameState :=
  let state :=
    if input.wasJustPressed "KeyX" then { state with shieldsActive := ¬state.shieldsActive }
    else state
  if state.shieldsActive ∧ state.shieldStrength > 0 then
    let state := { state with shieldStrength := max 0 (state.shieldStrength - (1 / 2) * delta) }
    if state.shieldStrength ≤ 0 then { state with shieldsActive := false } else state
  else state

/-- `updateShip(state, input, delta)` — the sections of the source function
composed in source order. -/
def updateShip (orc : TransOracle) (state : GameState) (input : Input)
    (delta : ℚ) : GameState :=
  shipShieldsStep
    (shipWeaponsStep
      (shipPositionStep
        (shipSpeedStep
          (shipWarpStep (shipThrottleStep (shipRotationStep orc state input delta) input) input)
          delta)
        delta)
      input delta)
    input delta

-- ─── Player phaser hit check (src/game/combat-system.ts) ─────────────────────

/-- `checkPhaserHits(combat, playerState, enemyPosition, delta)`.
`dist` stands for the one irrational operation, `toEnemy.length()`;
theorems about this function constrain it by `0 ≤ dist` and
`dist * dist = normSq (enemyPosition - playerState.position)`.
Returns the updated combat state and the hit flag. -/
def checkPhaserHits (combat : CombatState) (playerState : GameState)
    (enemyPosition : Vec3) (delta : ℚ) (dist : ℚ) : CombatState × Bool :=
  if ¬playerState.phaserFiring ∨ combat.enemyHealth.isDestroyed then (combat, false)
  else
    let toEnemy := enemyPosition.vsub playerState.position
    if dist > 200 then (combat, false)
    else
      let forward := Vec3.applyQuaternion ⟨0, 0, -1⟩ playerState.quaternion
      let toEnemyN := Vec3.normalizeWith dist toEnemy
      let dotV := forward.dot toEnemyN
      let minDot := max (17 / 20) (1 - 30 / max dist 1)
      if dotV > minDot then
        ({ combat with enemyHealth := applyDamage combat.enemyHealth (phaserDps * delta) }, true)
      else (combat, false)

-- ─── Weapon system (src/game/universe-manager.ts, updateWeapons) ─────────────

/-- `PHASER_DRAIN_RATE` (charge units per second while firing). -/
def phaserDrainRate : ℚ := 35

/-- `PHASER_COOLDOWN` (seconds between beam refreshes). -/
def phaserCooldownTime : ℚ := 3 / 20

/-- `PHASER_ORIGIN_OFFSET` — phaser strip position on the saucer. -/
def phaserOriginOffset : Vec3 := ⟨0, 3 / 5, -7 / 2⟩

/-- `TORPEDO_ORIGIN_OFFSET` — torpedo launcher position. -/
def torpedoOriginOffset : Vec3 := ⟨0, -2 / 5, -5 / 2⟩

/-- `PhaserBeam` from the effects segment of universe-manager.ts: the
`mesh` handle is purely visual and elided, keeping the `age`/`maxAge`
lifecycle fields. -/
structure Beam where
  age : ℚ
  maxAge : ℚ
  deriving DecidableEq, Repr

/-- `PhotonTorpedo` from the effects segment of universe-manager.ts: the
`mesh` group and `trail` are purely visual; `velocity` (the direction
normalized to `TORPEDO_SPEED = 80`, requiring a square root) and the
optional homing `targetPosition` feed only the kinematic integration in
`updateTorpedo` and the proximity hit test, and are elided with them,
keeping the `age`/`maxAge` lifecycle fields. -/
structure Torpedo where
  age : ℚ
  maxAge : ℚ
  deriving DecidableEq, Repr

/-- `createPhaserBeamMesh(origin, direction)` from the effects segment of
universe-manager.ts: the cylinder-mesh construction and its orientation
are purely visual; the returned record carries `age: 0, maxAge: 0.5`. -/
def createPhaserBeamMesh (_origin _direction : Vec3) : Beam :=
  { age := 0, maxAge := 1 / 2 }

/-- `createTorpedoMesh(origin, direction)` from the effects segment of
universe-manager.ts: the sphere/glow/trail meshes are purely visual and
the velocity vector is elided kinematics; the returned record carries
`age: 0, maxAge: 5.0`. -/
def createTorpedoMesh (_origin _direction : Vec3) : Torpedo :=
  { age := 0, maxAge := 5 }

/-- `WeaponSystemState` (the `phaserCores` list is purely visual and
elided). -/
structure WeaponSystemState where
  phaserBeams : List Beam
  torpedoes : List Torpedo
  phaserCooldown : ℚ
  deriving DecidableEq, Repr

/-- `createWeaponSystem()`. -/
def createWeaponSystem : WeaponSystemState :=
  { phaserBeams := [], torpedoes := [], phaserCooldown := 0 }

/-- `updateTorpedo(torpedo, delta)` from the effects segment of
universe-manager.ts: the homing steer and the position integration act
only on the elided kinematic fields (`velocity`, mesh position), and the
end-of-life fade only on the elided materials; the lifecycle effect is
`torpedo.age += delta`. -/
def updateTorpedo (torp : Torpedo) (delta : ℚ) : Torpedo :=
  { torp with age := torp.age + delta }

/-- `updateWeapons(ws, gameState, scene, shipGroup, delta)` — scene-graph
arguments and mesh bookkeeping elided; returns the updated weapon system
and game state.  Source order: cooldown decay, beam spawn, charge drain,
beam expiry, torpedo spawn (consuming the edge-triggered intent and ammo),
torpedo aging/expiry. -/
def updateWeapons (ws : WeaponSystemState) (gameState : GameState)
    (delta : ℚ) : WeaponSystemState × GameState :=
  let ws := { ws with phaserCooldown := max 0 (ws.phaserCooldown - delta) }
  let ws :=
    if gameState.phaserFiring ∧ gameState.phaserCharge > 5 ∧ ws.phaserCooldown ≤ 0 then
      let origin :=
        (Vec3.applyQuaternion phaserOriginOffset gameState.quaternion).vadd gameState.position
      let direction := Vec3.applyQuaternion ⟨0, 0, -1⟩ gameState.quaternion
      { ws with
          phaserBeams := ws.phaserBeams ++ [createPhaserBeamMesh origin direction]
          phaserCooldown := phaserCooldownTime }
    else ws
  let gameState :=
    if gameState.phaserFiring then
      let gs := { gameState with
        phaserCharge := max 0 (gameState.phaserCharge - phaserDrainRate * delta) }
      if gs.phaserCharge ≤ 0 then { gs with phaserFiring := false } else gs
    else gameState
  let ws :=
    { ws with
        phaserBeams :=
          ((ws.phaserBeams.map fun (b : Beam) => ({ b with age := b.age + delta } : Beam)).filter
            fun b => b.age < b.maxAge) }
  let spawnTorpedo := gameState.torpedoFiring ∧ gameState.torpedoCount > 0
  let ws :=
    if spawnTorpedo then
      let origin :=
        (Vec3.applyQuaternion torpedoOriginOffset gameState.quaternion).vadd gameState.position
      let direction := Vec3.applyQuaternion ⟨0, 0, -1⟩ gameState.quaternion
      { ws with torpedoes := ws.torpedoes ++ [createTorpedoMesh origin direction] }
    else ws
  let gameState :=
    if spawnTorpedo then
      { gameState with
          torpedoCount := gameState.torpedoCount - 1
          torpedoFiring := false }
    else gameState
  let ws :=
    { ws with
        torpedoes :=
          ((ws.torpedoes.map fun t => updateTorpedo t delta).filter
            fun t => t.age < t.maxAge) }
  (ws, gameState)

-- ─── Enemy AI (src/game/enemy-ai.ts) ─────────────────────────────────────────

/-- `ENEMY_SPEED` (world units/s). -/
def enemySpeed : ℚ := 8

/-- `ENEMY_TURN_SPEED` (rad/s). -/
def enemyTurnSpeed : ℚ := 3 / 5

/-- `DETECTION_RANGE` (units): the enemy wakes up. -/
def detectionRange : ℚ := 500

/-- `ATTACK_RANGE` (units): the enemy starts shooting. -/
def attackRange : ℚ := 150

/-- `PHASER_RANGE` (units): enemy phaser effective range. -/
def enemyPhaserRange : ℚ := 120

/-- `PHASER_COOLDOWN` (seconds between enemy phaser bursts). -/
def enemyPhaserCooldown : ℚ := 2

/-- `TORPEDO_COOLDOWN` (seconds between enemy torpedoes). -/
def enemyTorpedoCooldown : ℚ := 5

/-- `PHASER_BURST_DPS` of the enemy's phasers. -/
def phaserBurstDps : ℚ := 6

/-- `TORPEDO_DAMAGE` of an enemy torpedo hit. -/
def enemyTorpedoDamage : ℚ := 15

/-- `EVASIVE_HULL_THRESHOLD`: the enemy goes evasive below this hull. -/
def evasiveHullThreshold : ℚ := 30

/-- The four-state behavior machine (`EnemyBehavior`). -/
inductive EnemyBehavior where
  | idle
  | alert
  | attack
  | evasive
  deriving DecidableEq, Repr

/-- `EnemyShip` simulation state.  Scene-graph fields (`group`,
`modelReady`, `phaserBeam`, `phaserBeamAge`) are purely visual and elided. -/
structure EnemyState where
  position : Vec3
  quaternion : Quat
  behavior : EnemyBehavior
  speed : ℚ
  phaserCooldown : ℚ
  torpedoCooldown : ℚ
  phaserFiring : Bool
  torpedoJustFired : Bool
  alertTimer : ℚ
  orbitAngle : ℚ
  orbitCenter : Vec3
  orbitRadius : ℚ
  deriving DecidableEq, Repr

/-- Oracle for the enemy AI's transcendental/irrational library calls:
square roots (`Vector3.length`/`normalize`, quaternion normalize), sine and
cosine (idle orbit, evasive heading), the look-at quaternion and the
bounded slerp of `turnToward`, plus this frame's `Math.random()` and
`Date.now()` values. -/
structure AIOracle where
  sqrt : ℚ → ℚ
  sin : ℚ → ℚ
  cos : ℚ → ℚ
  lookQuat : Vec3 → Vec3 → Quat
  slerp : Quat → Quat → ℚ → Quat
  rand : ℚ
  now : ℚ

/-- `turnToward(enemy, target, delta)`: returns the enemy's new orientation.
The early-out on `lengthSq < 0.01` is exact rational arithmetic; the
look-at construction and slerp go through the oracle, followed by the
source's renormalization. -/
def turnToward (o : AIOracle) (position : Vec3) (q : Quat) (target : Vec3)
    (delta : ℚ) : Quat :=
  let toPlayer := target.vsub position
  if toPlayer.normSq < 1 / 100 then q
  else
    let targetQuat := o.lookQuat position target
    let t := min (enemyTurnSpeed * delta) 1
    let q := o.slerp q targetQuat t
    Quat.normalizeWith (o.sqrt (q.x * q.x + q.y * q.y + q.z * q.z + q.w * q.w)) q

/-- Movement section at the end of `updateEnemyAI`: advance along local
forward when `speed > 0` (the scene-graph transform copy is visual). -/
def aiMoveStep (enemy : EnemyState) (delta : ℚ) : EnemyState :=
  if enemy.speed > 0 then
    let forward := Vec3.applyQuaternion ⟨0, 0, -1⟩ enemy.quaternion
    { enemy with position := enemy.position.vadd (Vec3.smul (enemy.speed * delta) forward) }
  else enemy

/-- `updateEnemyAI(enemy, playerState, combat, scene, delta)` — the
destroyed short-circuit, the per-frame flag/cooldown upkeep, the behavior
state machine, and the movement step, in source order.  `dist` is the
oracle's answer for `toPlayer.length()`; behavior-transition theorems that
need it correct carry the square-root hypothesis explicitly.  The
destroyed branch's spin/shrink animation and `updateEnemyPhaserBeam` are
purely visual and elided. -/
def updateEnemyAI (o : AIOracle) (enemy : EnemyState) (playerState : GameState)
    (combat : CombatState) (delta : ℚ) : EnemyState × CombatState :=
  if combat.enemyHealth.isDestroyed then
    ({ enemy with speed := 0, phaserFiring := false }, combat)
  else
    let toPlayer := playerState.position.vsub enemy.position
    let dist := o.sqrt toPlayer.normSq
    let enemy :=
      { enemy with
          phaserFiring := false
          torpedoJustFired := false
          phaserCooldown := max 0 (enemy.phaserCooldown - delta)
          torpedoCooldown := max 0 (enemy.torpedoCooldown - delta) }
    match enemy.behavior with
    | .idle =>
      let angle := enemy.orbitAngle + delta * (3 / 20)
      let enemy :=
        { enemy with
            orbitAngle := angle
            position :=
              ⟨enemy.orbitCenter.x + o.cos angle * enemy.orbitRadius,
               enemy.orbitCenter.y,
               enemy.orbitCenter.z + o.sin angle * enemy.orbitRadius⟩
            speed := 0 }
      let enemy :=
        if dist < detectionRange then
          { enemy with behavior := .alert, alertTimer := 2 }
        else enemy
      (aiMoveStep enemy delta, combat)
    | .alert =>
      let enemy :=
        { enemy with
            quaternion := turnToward o enemy.position enemy.quaternion playerState.position delta
            speed := 0
            alertTimer := enemy.alertTimer - delta }
      let combat :=
        { combat with enemyHealth := { combat.enemyHealth with shieldsUp := true } }
      let enemy :=
        if enemy.alertTimer ≤ 0 then { enemy with behavior := .attack } else enemy
      (aiMoveStep enemy delta, combat)
    | .attack =>
      if combat.enemyHealth.hull < evasiveHullThreshold then
        (aiMoveStep { enemy with behavior := .evasive } delta, combat)
      else
        let enemy :=
          { enemy with
              quaternion :=
                turnToward o enemy.position enemy.quaternion playerState.position delta
              speed :=
                if dist > attackRange then enemySpeed
                else if dist < attackRange * (2 / 5) then enemySpeed * (3 / 10)
                else enemySpeed * (1 / 2) }
        let forward := Vec3.applyQuaternion ⟨0, 0, -1⟩ enemy.quaternion
        let facingDot := forward.dot (Vec3.normalizeWith dist toPlayer)
        let hit1 :=
          if facingDot > 4 / 5 ∧ dist < enemyPhaserRange then
            if enemy.phaserCooldown ≤ 0 then
              let enemy := { enemy with phaserFiring := true }
              let combat :=
                { combat with
                    playerHealth := applyDamage combat.playerHealth (phaserBurstDps * delta) }
              let enemy :=
                if o.rand < delta * (4 / 5) then
                  { enemy with phaserCooldown := enemyPhaserCooldown }
                else enemy
              (enemy, combat)
            else (enemy, combat)
          else (enemy, combat)
        let enemy := hit1.1
        let combat := hit1.2
        let hit2 :=
          if facingDot > 9 / 10 ∧ dist < attackRange ∧ enemy.torpedoCooldown ≤ 0 then
            ({ enemy with torpedoJustFired := true, torpedoCooldown := enemyTorpedoCooldown },
             { combat with
                 playerHealth := applyDamage combat.playerHealth enemyTorpedoDamage })
          else (enemy, combat)
        (aiMoveStep hit2.1 delta, hit2.2)
    | .evasive =>
      let evasiveLocal : Vec3 :=
        ⟨o.sin (o.now * (1 / 1000)) * (1 / 2), o.cos (o.now * (3 / 2000)) * (3 / 10), -1⟩
      let evasiveLocal := Vec3.normalizeWith (o.sqrt evasiveLocal.normSq) evasiveLocal
      let evasiveDir := Vec3.applyQuaternion evasiveLocal enemy.quaternion
      let targetPos := enemy.position.vadd (Vec3.smul 50 evasiveDir)
      let enemy :=
        { enemy with
            quaternion :=
              turnToward o enemy.position enemy.quaternion targetPos (delta * (3 / 2))
            speed := enemySpeed * (6 / 5) }
      let forward := Vec3.applyQuaternion ⟨0, 0, -1⟩ enemy.quaternion
      let evDot := forward.dot (Vec3.normalizeWith dist toPlayer)
      let hit1 :=
        if evDot > 7 / 10 ∧ dist < enemyPhaserRange ∧ enemy.phaserCooldown ≤ 0 then
          let enemy := { enemy with phaserFiring := true }
          let combat :=
            { combat with
                playerHealth :=
                  applyDamage combat.playerHealth (phaserBurstDps * delta * (1 / 2)) }
          let enemy :=
            if o.rand < delta * (1 / 2) then
              { enemy with phaserCooldown := enemyPhaserCooldown * (3 / 2) }
            else enemy
          (enemy, combat)
        else (enemy, combat)
      let enemy := hit1.1
      let combat := hit1.2
      let enemy :=
        if combat.enemyHealth.hull > evasiveHullThreshold + 10 ∨ dist > detectionRange then
          { enemy with behavior := .attack }
        else enemy
      (aiMoveStep enemy delta, combat)

/-- Iterate `updateEnemyAI` for `n` frames with a fixed player snapshot,
oracle, and frame delta. -/
def runAI (o : AIOracle) (playerState : GameState) (delta : ℚ) :
    ℕ → EnemyState × CombatState → EnemyState × CombatState
  | 0, s => s
  | n + 1, s => runAI o playerState delta n (updateEnemyAI o s.1 playerState s.2 delta)

-- ═══ Theorems ════════════════════════════════════════════════════════════════

-- ─── C1: shield absorption arithmetic of applyDamage ─────────────────────────

/-- C1: for every non-destroyed `ShipHealth` with shields up and positive
shield strength, `applyDamage` absorbs `rawDamage × 0.7`, lowers the shield
strength by half the absorbed amount (floored at 0), and lowers the hull by
`rawDamage − absorbed` (floored at 0); with shield strength 100 and raw
damage 10 the new shield strength is 96.5 and the hull drops by exactly 3. -/
theorem applyDamage_shield_absorption (h : ShipHealth) (raw : ℚ)
    (hd : h.isDestroyed = false) (hs : h.shieldsUp = true)
    (hpos : 0 < h.shieldStrength) :
    (applyDamage h raw).shieldStrength
        = max 0 (h.shieldStrength - raw * shieldAbsorption * (1 / 2))
    ∧ (applyDamage h raw).hull = max 0 (h.hull - (raw - raw * shieldAbsorption))
    ∧ (h.shieldStrength = 100 → raw = 10 →
        (applyDamage h raw).shieldStrength = 193 / 2
        ∧ (3 ≤ h.hull → h.hull - (applyDamage h raw).hull = 3)) := by
  have key1 : (applyDamage h raw).shieldStrength
      = max 0 (h.shieldStrength - raw * shieldAbsorption * (1 / 2)) := by
    simp [applyDamage, hd, hs, hpos, mul_assoc]
  have key2 : (applyDamage h raw).hull = max 0 (h.hull - (raw - raw * shieldAbsorption)) := by
    simp [applyDamage, hd, hs, hpos]
  refine ⟨key1, key2, fun h100 hraw => ⟨?_, fun hhull => ?_⟩⟩
  · rw [key1, h100, hraw]
    norm_num [shieldAbsorption]
  · rw [key2, hraw]
    have h3 : h.hull - ((10 : ℚ) - 10 * shieldAbsorption) = h.hull - 3 := by
      norm_num [shieldAbsorption]
    rw [h3, max_eq_right (by linarith)]
    ring

/-- Witness for C1 at a concrete shielded ship and raw damage 10. -/
theorem applyDamage_shield_absorption_witness :
    (applyDamage
        { hull := 100, maxHull := 100, shieldsUp := true, shieldStrength := 100,
          isDestroyed := false, damageFlash := 0 } 10).shieldStrength
      = max 0 (100 - 10 * shieldAbsorption * (1 / 2)) :=
  (applyDamage_shield_absorption
    { hull := 100, maxHull := 100, shieldsUp := true, shieldStrength := 100,
      isDestroyed := false, damageFlash := 0 } 10 rfl rfl (by norm_num)).1

-- ─── C2: applyDamage on a destroyed ship is a no-op ──────────────────────────

/-- C2: `applyDamage` on a target with `isDestroyed = true` returns the
record unchanged, for every damage value (negative, zero, or huge). -/
theorem applyDamage_destroyed_noop (h : ShipHealth) (raw : ℚ)
    (hd : h.isDestroyed = true) : applyDamage h raw = h := by
  simp [applyDamage, hd]

/-- Witness for C2 at a concrete destroyed ship and negative damage. -/
theorem applyDamage_destroyed_noop_witness :
    applyDamage
        { hull := 0, maxHull := 100, shieldsUp := true, shieldStrength := 37,
          isDestroyed := true, damageFlash := 1 } (-50)
      = { hull := 0, maxHull := 100, shieldsUp := true, shieldStrength := 37,
          isDestroyed := true, damageFlash := 1 } :=
  applyDamage_destroyed_noop _ (-50) rfl

-- ─── C5: applyDamage with zero damage ────────────────────────────────────────

/-- C5 counterexample: on a concrete non-destroyed ship with
`damageFlash = 0`, `applyDamage(target, 0)` changes `damageFlash` to 1.0,
so the call does not leave every field unchanged. -/
theorem applyDamage_zero_cex :
    (applyDamage
        { hull := 100, maxHull := 100, shieldsUp := false, shieldStrength := 100,
          isDestroyed := false, damageFlash := 0 } 0).damageFlash = 1
    ∧ ({ hull := 100, maxHull := 100, shieldsUp := false, shieldStrength := 100,
         isDestroyed := false, damageFlash := 0 } : ShipHealth).damageFlash = 0 := by
  constructor
  · simp [applyDamage]
  · rfl

/-- Closed form of `applyDamage` on a live ship with effective shields. -/
lemma applyDamage_shielded (h : ShipHealth) (raw : ℚ)
    (hd : h.isDestroyed = false) (hs : h.shieldsUp = true)
    (hpos : 0 < h.shieldStrength) :
    applyDamage h raw =
      { hull := max 0 (h.hull - (raw - raw * shieldAbsorption))
        maxHull := h.maxHull
        shieldsUp :=
          if max 0 (h.shieldStrength - raw * shieldAbsorption * (1 / 2)) ≤ 0 then false
          else true
        shieldStrength := max 0 (h.shieldStrength - raw * shieldAbsorption * (1 / 2))
        isDestroyed :=
          if max 0 (h.hull - (raw - raw * shieldAbsorption)) ≤ 0 then true else false
        damageFlash := 1 } := by
  simp [applyDamage, hd, hs, hpos, mul_assoc]

/-- Closed form of `applyDamage` on a live ship whose shields do not help
(shields down, or shield strength not positive): full raw damage to hull. -/
lemma applyDamage_unshielded (h : ShipHealth) (raw : ℚ)
    (hd : h.isDestroyed = false)
    (hns : ¬(h.shieldsUp = true ∧ 0 < h.shieldStrength)) :
    applyDamage h raw =
      { hull := max 0 (h.hull - raw)
        maxHull := h.maxHull
        shieldsUp := h.shieldsUp
        shieldStrength := h.shieldStrength
        isDestroyed := if max 0 (h.hull - raw) ≤ 0 then true else false
        damageFlash := 1 } := by
  simp [applyDamage, hd, hns]

/-- C5 (amended): for every `ShipHealth` record with `0 ≤ hull`,
`applyDamage(target, 0)` leaves `hull`, `maxHull`, `shieldsUp` and
`shieldStrength` unchanged; `isDestroyed` is unchanged whenever the record
is destroyed or has positive hull; and `damageFlash` keeps its value on a
destroyed record but is reset to 1.0 on a live one. -/
theorem applyDamage_zero_amended (h : ShipHealth) (hh : 0 ≤ h.hull) :
    (applyDamage h 0).hull = h.hull
    ∧ (applyDamage h 0).maxHull = h.maxHull
    ∧ (applyDamage h 0).shieldsUp = h.shieldsUp
    ∧ (applyDamage h 0).shieldStrength = h.shieldStrength
    ∧ (h.isDestroyed = true ∨ 0 < h.hull → (applyDamage h 0).isDestroyed = h.isDestroyed)
    ∧ (applyDamage h 0).damageFlash = (if h.isDestroyed then h.damageFlash else 1) := by
  by_cases hd : h.isDestroyed = true
  · simp [applyDamage_destroyed_noop h 0 hd, hd]
  · simp only [Bool.not_eq_true] at hd
    by_cases hsh : h.shieldsUp = true ∧ 0 < h.shieldStrength
    · rw [applyDamage_shielded h 0 hd hsh.1 hsh.2]
      have hstr : max (0 : ℚ) (h.shieldStrength - 0 * shieldAbsorption * (1 / 2))
          = h.shieldStrength := by
        rw [zero_mul, zero_mul, sub_zero, max_eq_right (le_of_lt hsh.2)]
      have hhull : max (0 : ℚ) (h.hull - (0 - 0 * shieldAbsorption)) = h.hull := by
        rw [zero_mul, sub_zero, sub_zero, max_eq_right hh]
      refine ⟨hhull, rfl, ?_, hstr, ?_, by simp [hd]⟩
      · rw [hstr, if_neg (not_le.mpr hsh.2), hsh.1]
      · intro hcase
        rcases hcase with hcase | hcase
        · exact absurd hcase (by simp [hd])
        · rw [hd, hhull, if_neg (not_le.mpr hcase)]
    · rw [applyDamage_unshielded h 0 hd hsh]
      have hhull : max (0 : ℚ) (h.hull - 0) = h.hull := by
        rw [sub_zero, max_eq_right hh]
      refine ⟨hhull, rfl, rfl, rfl, ?_, by simp [hd]⟩
      intro hcase
      rcases hcase with hcase | hcase
      · exact absurd hcase (by simp [hd])
      · rw [hd, hhull, if_neg (not_le.mpr hcase)]

/-- Witness for C5 (amended) at a concrete live ship. -/
theorem applyDamage_zero_amended_witness :
    (applyDamage
        { hull := 80, maxHull := 100, shieldsUp := true, shieldStrength := 60,
          isDestroyed := false, damageFlash := 0 } 0).shieldStrength = 60 :=
  (applyDamage_zero_amended
    { hull := 80, maxHull := 100, shieldsUp := true, shieldStrength := 60,
      isDestroyed := false, damageFlash := 0 } (by norm_num)).2.2.2.1

-- ─── C10: no upper clamp on hull; negative damage heals ──────────────────────

/-- C10: with shields down (`shieldsUp = false` or `shieldStrength = 0`) on
a live ship, the new hull is exactly `max 0 (hull − rawDamage)` — never
clamped from above — so negative raw damage strictly increases the hull,
and can push it above `maxHull`. -/
theorem applyDamage_no_overheal_clamp :
    (∀ (h : ShipHealth) (raw : ℚ), h.isDestroyed = false →
      (h.shieldsUp = false ∨ h.shieldStrength = 0) →
      (applyDamage h raw).hull = max 0 (h.hull - raw)
      ∧ (raw < 0 → h.hull < (applyDamage h raw).hull))
    ∧ ∃ (h : ShipHealth) (raw : ℚ),
        h.isDestroyed = false ∧ h.shieldsUp = false
        ∧ h.maxHull < (applyDamage h raw).hull := by
  constructor
  · intro h raw hd hdown
    have hns : ¬(h.shieldsUp = true ∧ 0 < h.shieldStrength) := by
      rcases hdown with hcase | hcase
      · exact fun hc => by rw [hcase] at hc ; exact Bool.false_ne_true hc.1
      · exact fun hc => by rw [hcase] at hc ; exact lt_irrefl 0 hc.2
    rw [applyDamage_unshielded h raw hd hns]
    refine ⟨rfl, fun hneg => ?_⟩
    calc h.hull < h.hull - raw := by linarith
    _ ≤ max 0 (h.hull - raw) := le_max_right 0 _
  · refine ⟨⟨100, 100, false, 100, false, 0⟩, -50, rfl, rfl, ?_⟩
    rw [applyDamage_unshielded _ _ rfl (by simp)]
    norm_num

/-- Witness for C10 at a concrete shields-down ship and negative damage. -/
theorem applyDamage_no_overheal_clamp_witness :
    (applyDamage
        { hull := 100, maxHull := 100, shieldsUp := false, shieldStrength := 100,
          isDestroyed := false, damageFlash := 0 } (-50)).hull = max 0 (100 - (-50)) :=
  (applyDamage_no_overheal_clamp.1
    { hull := 100, maxHull := 100, shieldsUp := false, shieldStrength := 100,
      isDestroyed := false, damageFlash := 0 } (-50) rfl (Or.inl rfl)).1

-- ─── C4: simultaneous destruction tie-break in updateCombatTimers ────────────

/-- A combat state with both ships destroyed and no outcome recorded yet. -/
def bothDestroyedState : CombatState :=
  { playerHealth :=
      { hull := 0, maxHull := 100, shieldsUp := false, shieldStrength := 0,
        isDestroyed := true, damageFlash := 0 }
    enemyHealth :=
      { hull := 0, maxHull := 100, shieldsUp := false, shieldStrength := 0,
        isDestroyed := true, damageFlash := 0 }
    gameOver := none }

/-- C4 counterexample: with `gameOver = null` and both `playerHealth` and
`enemyHealth` destroyed, the per-frame check sets `gameOver` to `'victory'`
— not `'defeat'` as the claim states — because the enemy-destroyed branch
is tested first. -/
theorem updateCombatTimers_tie_cex :
    (updateCombatTimers bothDestroyedState 1).gameOver = some Outcome.victory
    ∧ (updateCombatTimers bothDestroyedState 1).gameOver ≠ some Outcome.defeat := by
  constructor
  · rfl
  · intro hcontra
    simp [updateCombatTimers, bothDestroyedState] at hcontra

/-- C4 (amended): if the per-frame win/lose check runs with
`gameOver = null` and both sides destroyed, `gameOver` is set to
`'victory'` — the enemy-destroyed check runs first, so a simultaneous kill
resolves in the player's favor rather than prioritizing defeat. -/
theorem updateCombatTimers_tie_amended (s : CombatState) (delta : ℚ)
    (hnone : s.gameOver = none)
    (_hp : s.playerHealth.isDestroyed = true)
    (he : s.enemyHealth.isDestroyed = true) :
    (updateCombatTimers s delta).gameOver = some Outcome.victory := by
  simp only [updateCombatTimers, hnone, if_pos]
  split_ifs <;> simp_all

/-- Witness for C4 (amended) at the concrete both-destroyed state. -/
theorem updateCombatTimers_tie_amended_witness :
    (updateCombatTimers bothDestroyedState 1).gameOver = some Outcome.victory :=
  updateCombatTimers_tie_amended bothDestroyedState 1 rfl rfl rfl

-- ─── C3: gameOver is set at most once and never reverts ──────────────────────

/-- One combat event never clears or changes an already-set outcome. -/
lemma combatStep_gameOver_some (op : CombatOp) (s : CombatState) (v : Outcome)
    (hv : s.gameOver = some v) : (combatStep op s).gameOver = some v := by
  cases op with
  | damagePlayer raw => simpa [combatStep] using hv
  | damageEnemy raw => simpa [combatStep] using hv
  | tick delta => simp [combatStep, updateCombatTimers, hv]

/-- A whole sequence of combat events never clears or changes an
already-set outcome. -/
lemma runCombat_gameOver_some (ops : List CombatOp) (s : CombatState) (v : Outcome)
    (hv : s.gameOver = some v) : (runCombat s ops).gameOver = some v := by
  induction ops generalizing s with
  | nil => simpa [runCombat] using hv
  | cons op ops ih => exact ih (combatStep op s) (combatStep_gameOver_some op s v hv)

/-- `runCombat` splits over list append. -/
lemma runCombat_append (s : CombatState) (ops₁ ops₂ : List CombatOp) :
    runCombat s (ops₁ ++ ops₂) = runCombat (runCombat s ops₁) ops₂ := by
  induction ops₁ generalizing s with
  | nil => rfl
  | cons op ops ih => simp [runCombat, ih]

/-- C3: starting from `gameOver = null`, across any sequence of
`applyDamage` and `updateCombatTimers` events, once `gameOver` becomes
non-null it holds exactly one of victory/defeat and no further sequence of
events ever changes it. -/
theorem gameOver_set_at_most_once (s : CombatState) (ops₁ ops₂ : List CombatOp)
    (v : Outcome) (_hstart : s.gameOver = none)
    (hset : (runCombat s ops₁).gameOver = some v) :
    (v = Outcome.victory ∨ v = Outcome.defeat)
    ∧ (runCombat s (ops₁ ++ ops₂)).gameOver = some v := by
  refine ⟨?_, ?_⟩
  · cases v
    · exact Or.inl rfl
    · exact Or.inr rfl
  · rw [runCombat_append]
    exact runCombat_gameOver_some ops₂ _ v hset

/-- Witness for C3: a fresh combat state, a sequence that destroys the
enemy and ticks the win check, then further damage and ticks. -/
theorem gameOver_set_at_most_once_witness :
    createCombatState.gameOver = none
    ∧ (runCombat createCombatState [CombatOp.damageEnemy 1000, CombatOp.tick 1]).gameOver
        = some Outcome.victory
    ∧ (runCombat createCombatState
          ([CombatOp.damageEnemy 1000, CombatOp.tick 1]
            ++ [CombatOp.damagePlayer 500, CombatOp.tick 1])).gameOver
        = some Outcome.victory :=
  ⟨rfl,
    by norm_num [runCombat, combatStep, applyDamage, updateCombatTimers,
      createCombatState, createShipHealth, shieldAbsorption],
    (gameOver_set_at_most_once createCombatState
      [CombatOp.damageEnemy 1000, CombatOp.tick 1]
      [CombatOp.damagePlayer 500, CombatOp.tick 1]
      Outcome.victory rfl
      (by norm_num [runCombat, combatStep, applyDamage, updateCombatTimers,
        createCombatState, createShipHealth, shieldAbsorption])).2⟩

-- ─── Field-preservation lemmas for the updateShip pipeline ───────────────────

/-- The rotation section writes only the quaternion. -/
lemma shipRotationStep_fields (orc : TransOracle) (s : GameState) (input : Input)
    (delta : ℚ) :
    (shipRotationStep orc s input delta).throttle = s.throttle
    ∧ (shipRotationStep orc s input delta).isWarp = s.isWarp
    ∧ (shipRotationStep orc s input delta).torpedoCount = s.torpedoCount :=
  ⟨rfl, rfl, rfl⟩

/-- The throttle section writes only the throttle. -/
lemma shipThrottleStep_fields (s : GameState) (input : Input) :
    (shipThrottleStep s input).isWarp = s.isWarp
    ∧ (shipThrottleStep s input).torpedoCount = s.torpedoCount :=
  ⟨rfl, rfl⟩

/-- The warp section writes only the warp flag. -/
lemma shipWarpStep_fields (s : GameState) (input : Input) :
    (shipWarpStep s input).throttle = s.throttle
    ∧ (shipWarpStep s input).torpedoCount = s.torpedoCount := by
  unfold shipWarpStep
  dsimp only
  split_ifs <;> exact ⟨rfl, rfl⟩

/-- The speed section writes only the speed. -/
lemma shipSpeedStep_fields (s : GameState) (delta : ℚ) :
    (shipSpeedStep s delta).throttle = s.throttle
    ∧ (shipSpeedStep s delta).isWarp = s.isWarp
    ∧ (shipSpeedStep s delta).torpedoCount = s.torpedoCount := by
  unfold shipSpeedStep
  dsimp only
  split_ifs <;> exact ⟨rfl, rfl, rfl⟩

/-- The position section writes only velocity and position. -/
lemma shipPositionStep_fields (s : GameState) (delta : ℚ) :
    (shipPositionStep s delta).throttle = s.throttle
    ∧ (shipPositionStep s delta).isWarp = s.isWarp
    ∧ (shipPositionStep s delta).torpedoCount = s.torpedoCount :=
  ⟨rfl, rfl, rfl⟩

/-- The weapons section writes only charge and the two fire intents. -/
lemma shipWeaponsStep_fields (s : GameState) (input : Input) (delta : ℚ) :
    (shipWeaponsStep s input delta).throttle = s.throttle
    ∧ (shipWeaponsStep s input delta).isWarp = s.isWarp
    ∧ (shipWeaponsStep s input delta).torpedoCount = s.torpedoCount := by
  unfold shipWeaponsStep
  dsimp only
  split_ifs <;> exact ⟨rfl, rfl, rfl⟩

/-- The weapons section's torpedo intent is the edge-triggered press gated
on ammo. -/
lemma shipWeaponsStep_torpedoFiring (s : GameState) (input : Input) (delta : ℚ) :
    (shipWeaponsStep s input delta).torpedoFiring = true
      ↔ (input.wasJustPressed "KeyT" = true ∧ s.torpedoCount > 0) := by
  unfold shipWeaponsStep
  dsimp only
  split_ifs <;> simp

/-- The shields section writes only the shield fields. -/
lemma shipShieldsStep_fields (s : GameState) (input : Input) (delta : ℚ) :
    (shipShieldsStep s input delta).throttle = s.throttle
    ∧ (shipShieldsStep s input delta).isWarp = s.isWarp
    ∧ (shipShieldsStep s input delta).torpedoCount = s.torpedoCount
    ∧ (shipShieldsStep s input delta).torpedoFiring = s.torpedoFiring := by
  unfold shipShieldsStep
  dsimp only
  split_ifs <;> exact ⟨rfl, rfl, rfl, rfl⟩

/-- The warp section leaves the throttle alone, and its outcome obeys the
warp/throttle discipline: a set flag needs throttle above 0.05, the
auto-disengage fires without a toggle, and engaging needs a toggle press
with throttle above 0.1. -/
lemma shipWarpStep_spec (s : GameState) (input : Input) :
    ((shipWarpStep s input).isWarp = true → s.throttle > 1 / 20)
    ∧ (input.wasJustPressed "CapsLock" = false → s.isWarp = true →
        s.throttle ≤ 1 / 20 → (shipWarpStep s input).isWarp = false)
    ∧ (s.isWarp = false → (shipWarpStep s input).isWarp = true →
        input.wasJustPressed "CapsLock" = true ∧ s.throttle > 1 / 10) := by
  unfold shipWarpStep
  dsimp only
  split_ifs <;> simp_all

-- ─── C6: warp flag implies throttle above the disengage threshold ────────────

/-- C6: after every `updateShip` call, `isWarp = true` implies
`throttle > 0.05`; if warp was engaged and the throttle is at or below
0.05, the call clears `isWarp` without any toggle press; and a call that
engages warp (false to true) must have seen the CapsLock toggle with
throttle above 0.1. -/
theorem updateShip_warp_throttle (orc : TransOracle) (state : GameState)
    (input : Input) (delta : ℚ) :
    ((updateShip orc state input delta).isWarp = true →
      (updateShip orc state input delta).throttle > 1 / 20)
    ∧ (input.wasJustPressed "CapsLock" = false → state.isWarp = true →
        (updateShip orc state input delta).throttle ≤ 1 / 20 →
        (updateShip orc state input delta).isWarp = false)
    ∧ (state.isWarp = false → (updateShip orc state input delta).isWarp = true →
        input.wasJustPressed "CapsLock" = true
          ∧ (updateShip orc state input delta).throttle > 1 / 10) := by
  have hios : (updateShip orc state input delta).isWarp
      = (shipWarpStep (shipThrottleStep (shipRotationStep orc state input delta) input)
          input).isWarp := by
    unfold updateShip
    rw [(shipShieldsStep_fields _ input delta).2.1,
      (shipWeaponsStep_fields _ input delta).2.1,
      (shipPositionStep_fields _ delta).2.1,
      (shipSpeedStep_fields _ delta).2.1]
  have hthr : (updateShip orc state input delta).throttle
      = (shipThrottleStep (shipRotationStep orc state input delta) input).throttle := by
    unfold updateShip
    rw [(shipShieldsStep_fields _ input delta).1,
      (shipWeaponsStep_fields _ input delta).1,
      (shipPositionStep_fields _ delta).1,
      (shipSpeedStep_fields _ delta).1,
      (shipWarpStep_fields _ input).1]
  have hw : (shipThrottleStep (shipRotationStep orc state input delta) input).isWarp
      = state.isWarp := by
    rw [(shipThrottleStep_fields _ input).1, (shipRotationStep_fields orc state input delta).2.1]
  have hspec := shipWarpStep_spec
    (shipThrottleStep (shipRotationStep orc state input delta) input) input
  refine ⟨?_, ?_, ?_⟩
  · intro hiw
    rw [hthr]
    exact hspec.1 (hios.symm.trans hiw)
  · intro hcl hsw hth
    rw [hios]
    exact hspec.2.1 hcl (hw.trans hsw) (hthr.symm.trans_le hth)
  · intro hsw hiw
    have hmain := hspec.2.2 (hw.trans hsw) (hios.symm.trans hiw)
    exact ⟨hmain.1, by rw [hthr] ; exact hmain.2⟩

/-- Witness for C6: a warping ship at full throttle with no input keeps
`isWarp`, and the first conjunct yields `throttle > 0.05` there. -/
theorem updateShip_warp_throttle_witness :
    (updateShip TransOracle.zero
        { createGameState with isWarp := true, throttle := 1 } Input.idle 1).throttle
      > 1 / 20 :=
  (updateShip_warp_throttle TransOracle.zero
    { createGameState with isWarp := true, throttle := 1 } Input.idle 1).1
    (by norm_num [updateShip, shipRotationStep, shipThrottleStep, shipWarpStep,
      shipSpeedStep, shipPositionStep, shipWeaponsStep, shipShieldsStep, Input.idle,
      createGameState, digitKey, List.range_succ, TransOracle.zero, pitchSpeed, yawSpeed,
      rollSpeed, impulseMaxSpeed, warpMultiplier, movementScale, phaserRecharge,
      Quat.normalizeWith, Quat.identity])

-- ─── C7: torpedo ammo is non-increasing and empty ammo is silent ─────────────

/-- C7: `updateShip` never changes `torpedoCount`; `updateWeapons` changes
it exactly by the spawn rule (minus one when the edge-triggered intent is
up and ammo is positive, otherwise unchanged), so it is non-increasing;
and at `torpedoCount = 0` a torpedo press yields no fire intent, the count
stays 0, and the active torpedo collection does not grow. -/
theorem torpedoCount_policy (orc : TransOracle) (gs : GameState) (input : Input)
    (delta : ℚ) (ws : WeaponSystemState) :
    (updateShip orc gs input delta).torpedoCount = gs.torpedoCount
    ∧ ((updateWeapons ws gs delta).2.torpedoCount
        = if gs.torpedoFiring = true ∧ gs.torpedoCount > 0 then gs.torpedoCount - 1
          else gs.torpedoCount)
    ∧ (updateWeapons ws gs delta).2.torpedoCount ≤ gs.torpedoCount
    ∧ (gs.torpedoCount = 0 →
        (updateShip orc gs input delta).torpedoFiring = false
        ∧ (updateWeapons ws gs delta).2.torpedoCount = 0
        ∧ (updateWeapons ws gs delta).1.torpedoes.length ≤ ws.torpedoes.length) := by
  have hship : (updateShip orc gs input delta).torpedoCount = gs.torpedoCount := by
    unfold updateShip
    rw [(shipShieldsStep_fields _ input delta).2.2.1,
      (shipWeaponsStep_fields _ input delta).2.2,
      (shipPositionStep_fields _ delta).2.2,
      (shipSpeedStep_fields _ delta).2.2,
      (shipWarpStep_fields _ input).2,
      (shipThrottleStep_fields _ input).2,
      (shipRotationStep_fields orc gs input delta).2.2]
  have hcount : (updateWeapons ws gs delta).2.torpedoCount
      = if gs.torpedoFiring = true ∧ gs.torpedoCount > 0 then gs.torpedoCount - 1
        else gs.torpedoCount := by
    unfold updateWeapons
    dsimp only
    split_ifs <;> simp_all
  refine ⟨hship, hcount, ?_, ?_⟩
  · rw [hcount]
    split_ifs with hc
    · linarith
    · exact le_refl _
  · intro h0
    refine ⟨?_, ?_, ?_⟩
    · unfold updateShip
      rw [(shipShieldsStep_fields _ input delta).2.2.2]
      have hc5 : (shipPositionStep
          (shipSpeedStep
            (shipWarpStep (shipThrottleStep (shipRotationStep orc gs input delta) input) input)
            delta) delta).torpedoCount = gs.torpedoCount := by
        rw [(shipPositionStep_fields _ delta).2.2,
          (shipSpeedStep_fields _ delta).2.2,
          (shipWarpStep_fields _ input).2,
          (shipThrottleStep_fields _ input).2,
          (shipRotationStep_fields orc gs input delta).2.2]
      have hiff := shipWeaponsStep_torpedoFiring
        (shipPositionStep
          (shipSpeedStep
            (shipWarpStep (shipThrottleStep (shipRotationStep orc gs input delta) input) input)
            delta) delta) input delta
      rw [hc5, h0] at hiff
      rcases hb : (shipWeaponsStep (shipPositionStep
          (shipSpeedStep
            (shipWarpStep (shipThrottleStep (shipRotationStep orc gs input delta) input) input)
            delta) delta) input delta).torpedoFiring
      · rfl
      · exact absurd ((hiff.mp hb).2) (by norm_num)
    · rw [hcount, h0]
      simp
    · unfold updateWeapons
      dsimp only
      have hnospawn : ¬(gs.torpedoFiring = true ∧ gs.torpedoCount > 0) := by
        simp [h0]
      split_ifs <;>
        first
          | exact le_trans (List.length_filter_le _ _) (le_of_eq (List.length_map _ _))
          | simp_all

/-- Witness for C7: fresh ship state and weapon system, one frame of
no-input update. -/
theorem torpedoCount_policy_witness :
    (updateShip TransOracle.zero createGameState Input.idle 1).torpedoCount
      = createGameState.torpedoCount :=
  (torpedoCount_policy TransOracle.zero createGameState Input.idle 1 createWeaponSystem).1

-- ─── C9: player phaser hit condition and continuous damage ───────────────────

/-- C9: `checkPhaserHits` damages the enemy exactly when the phaser intent
is up, the enemy is alive, the distance is within the 200-unit beam range,
and the forward-axis dot with the unit direction to the enemy exceeds
`max(0.85, 1 − 30 / max(dist, 1))` (more forgiving at close range); a hit
applies `PHASER_DPS × delta` damage (continuous, per-frame), and a miss
leaves the combat state untouched. -/
theorem checkPhaserHits_spec (combat : CombatState) (p : GameState) (enemyPos : Vec3)
    (delta dist : ℚ) (_hd0 : 0 ≤ dist)
    (_hdd : dist * dist = (enemyPos.vsub p.position).normSq) :
    ((checkPhaserHits combat p enemyPos delta dist).2 = true ↔
      (p.phaserFiring = true ∧ combat.enemyHealth.isDestroyed = false ∧ dist ≤ 200 ∧
        (Vec3.applyQuaternion ⟨0, 0, -1⟩ p.quaternion).dot
            (Vec3.normalizeWith dist (enemyPos.vsub p.position))
          > max (17 / 20) (1 - 30 / max dist 1)))
    ∧ ((checkPhaserHits combat p enemyPos delta dist).2 = true →
        (checkPhaserHits combat p enemyPos delta dist).1
          = { combat with enemyHealth := applyDamage combat.enemyHealth (phaserDps * delta) })
    ∧ ((checkPhaserHits combat p enemyPos delta dist).2 = false →
        (checkPhaserHits combat p enemyPos delta dist).1 = combat) := by
  unfold checkPhaserHits
  dsimp only
  split_ifs with h1 h2 h3 <;>
    refine ⟨?_, ?_, ?_⟩ <;> simp_all <;> intro hfire <;> simp_all [not_lt]

/-- Witness for C9: identity orientation, enemy dead ahead at distance 100,
firing — the hit flag is set. -/
theorem checkPhaserHits_spec_witness :
    (checkPhaserHits createCombatState
        { createGameState with phaserFiring := true } ⟨0, 0, -100⟩ 1 100).2 = true :=
  (checkPhaserHits_spec createCombatState
      { createGameState with phaserFiring := true } ⟨0, 0, -100⟩ 1 100
      (by norm_num)
      (by norm_num [Vec3.vsub, Vec3.normSq, createGameState])).1.mpr
    ⟨rfl, rfl, by norm_num,
      by norm_num [Vec3.applyQuaternion, Vec3.normalizeWith, Vec3.dot, Vec3.smul,
        Vec3.vsub, createGameState, Quat.identity]⟩

-- ─── Enemy AI step lemmas ────────────────────────────────────────────────────

/-- The movement step writes only the position. -/
lemma aiMoveStep_fields (e : EnemyState) (delta : ℚ) :
    (aiMoveStep e delta).behavior = e.behavior
    ∧ (aiMoveStep e delta).alertTimer = e.alertTimer := by
  unfold aiMoveStep
  split_ifs <;> exact ⟨rfl, rfl⟩

/-- One AI step never changes the enemy's own hull or destroyed flag (it
only raises the enemy's shields or damages the player). -/
lemma updateEnemyAI_enemyHealth (o : AIOracle) (e : EnemyState) (p : GameState)
    (c : CombatState) (delta : ℚ) :
    (updateEnemyAI o e p c delta).2.enemyHealth.hull = c.enemyHealth.hull
    ∧ (updateEnemyAI o e p c delta).2.enemyHealth.isDestroyed
        = c.enemyHealth.isDestroyed := by
  unfold updateEnemyAI
  by_cases hd : c.enemyHealth.isDestroyed = true
  · simp [hd]
  · simp only [Bool.not_eq_true] at hd
    simp only [hd, Bool.false_eq_true, if_false]
    cases e.behavior <;> (try dsimp only) <;> (try split_ifs) <;> simp_all

/-- An idle enemy that senses the player within detection range goes to
alert and arms the 2-second alert timer. -/
lemma updateEnemyAI_idle_detect (o : AIOracle) (e : EnemyState) (p : GameState)
    (c : CombatState) (delta : ℚ)
    (hd : c.enemyHealth.isDestroyed = false) (hb : e.behavior = .idle)
    (hdist : o.sqrt ((p.position.vsub e.position).normSq) < detectionRange) :
    (updateEnemyAI o e p c delta).1.behavior = .alert
    ∧ (updateEnemyAI o e p c delta).1.alertTimer = 2 := by
  unfold updateEnemyAI
  simp only [hd, Bool.false_eq_true, if_false]
  rw [hb]
  dsimp only
  rw [if_pos hdist]
  exact ⟨((aiMoveStep_fields _ delta).1), ((aiMoveStep_fields _ delta).2)⟩

/-- An alert enemy counts its timer down by `delta` each step and engages
once the decremented timer is at or below zero. -/
lemma updateEnemyAI_alert (o : AIOracle) (e : EnemyState) (p : GameState)
    (c : CombatState) (delta : ℚ)
    (hd : c.enemyHealth.isDestroyed = false) (hb : e.behavior = .alert) :
    (updateEnemyAI o e p c delta).1.behavior
        = (if e.alertTimer - delta ≤ 0 then EnemyBehavior.attack else EnemyBehavior.alert)
    ∧ (updateEnemyAI o e p c delta).1.alertTimer = e.alertTimer - delta := by
  unfold updateEnemyAI
  simp only [hd, Bool.false_eq_true, if_false]
  rw [hb]
  dsimp only
  split_ifs with ht
  · exact ⟨by rw [(aiMoveStep_fields _ delta).1], by rw [(aiMoveStep_fields _ delta).2]⟩
  · exact ⟨by rw [(aiMoveStep_fields _ delta).1], by rw [(aiMoveStep_fields _ delta).2]⟩

/-- An attacking enemy whose hull is at or above the evasive threshold
stays in attack. -/
lemma updateEnemyAI_attack_stable (o : AIOracle) (e : EnemyState) (p : GameState)
    (c : CombatState) (delta : ℚ)
    (hd : c.enemyHealth.isDestroyed = false) (hb : e.behavior = .attack)
    (hhull : evasiveHullThreshold ≤ c.enemyHealth.hull) :
    (updateEnemyAI o e p c delta).1.behavior = .attack := by
  unfold updateEnemyAI
  simp only [hd, Bool.false_eq_true, if_false]
  rw [hb]
  dsimp only
  rw [if_neg (not_lt.mpr hhull)]
  dsimp only
  split_ifs <;> simp [aiMoveStep_fields, hb]

/-- Attack is absorbing over any number of frames while the enemy's hull
stays at or above the evasive threshold (the AI never damages itself). -/
lemma runAI_attack_stable (o : AIOracle) (p : GameState) (delta : ℚ) :
    ∀ (n : ℕ) (e : EnemyState) (c : CombatState),
      e.behavior = .attack → c.enemyHealth.isDestroyed = false →
      evasiveHullThreshold ≤ c.enemyHealth.hull →
      (runAI o p delta n (e, c)).1.behavior = .attack := by
  intro n
  induction n with
  | zero => intro e c hb _ _ ; exact hb
  | succ n ih =>
    intro e c hb hd hhull
    have hpres := updateEnemyAI_enemyHealth o e p c delta
    exact ih _ _
      (updateEnemyAI_attack_stable o e p c delta hd hb hhull)
      (hpres.2.trans hd)
      (hpres.1.symm ▸ hhull)

/-- From alert, once enough frames have passed for the timer to elapse,
the enemy is attacking. -/
lemma runAI_alert_to_attack (o : AIOracle) (p : GameState) (delta : ℚ) :
    ∀ (m : ℕ) (e : EnemyState) (c : CombatState),
      e.behavior = .alert → c.enemyHealth.isDestroyed = false →
      evasiveHullThreshold ≤ c.enemyHealth.hull →
      e.alertTimer ≤ ((m : ℚ) + 1) * delta →
      (runAI o p delta (m + 1) (e, c)).1.behavior = .attack := by
  intro m
  induction m with
  | zero =>
    intro e c hb hd hhull htimer
    show (runAI o p delta 0 (updateEnemyAI o e p c delta)).1.behavior = .attack
    have halert := updateEnemyAI_alert o e p c delta hd hb
    have : e.alertTimer - delta ≤ 0 := by
      rw [Nat.cast_zero, zero_add, one_mul] at htimer
      linarith
    simpa [runAI, this] using halert.1
  | succ m ih =>
    intro e c hb hd hhull htimer
    show (runAI o p delta (m + 1) (updateEnemyAI o e p c delta)).1.behavior = .attack
    have halert := updateEnemyAI_alert o e p c delta hd hb
    have hpres := updateEnemyAI_enemyHealth o e p c delta
    by_cases hstop : e.alertTimer - delta ≤ 0
    · have hatt : (updateEnemyAI o e p c delta).1.behavior = .attack := by
        rw [halert.1, if_pos hstop]
      have := runAI_attack_stable o p delta (m + 1)
        (updateEnemyAI o e p c delta).1 (updateEnemyAI o e p c delta).2
        hatt (hpres.2.trans hd) (hpres.1.symm ▸ hhull)
      simpa using this
    · have halertstate : (updateEnemyAI o e p c delta).1.behavior = .alert := by
        rw [halert.1, if_neg hstop]
      have htimer2 : (updateEnemyAI o e p c delta).1.alertTimer ≤ ((m : ℚ) + 1) * delta := by
        rw [halert.2]
        push_cast at htimer ⊢
        linarith
      have := ih (updateEnemyAI o e p c delta).1 (updateEnemyAI o e p c delta).2
        halertstate (hpres.2.trans hd) (hpres.1.symm ▸ hhull) htimer2
      simpa using this

-- ─── C8: idle → alert on detection, alert → attack after the timer ───────────

/-- C8: an idle enemy with the (non-destroyed) player within detection
range goes to `alert` in one `updateEnemyAI` step and arms the 2-second
alert timer; and from `alert`, once the alert timer has elapsed across
subsequent steps with no other changes, the behavior is `attack`. -/
theorem enemy_alert_engagement (o : AIOracle) (e : EnemyState) (p : GameState)
    (c : CombatState) (delta : ℚ) (m : ℕ)
    (hdestroyed : c.enemyHealth.isDestroyed = false)
    (_hplayer : c.playerHealth.isDestroyed = false) :
    (e.behavior = .idle →
      0 ≤ o.sqrt ((p.position.vsub e.position).normSq) →
      o.sqrt ((p.position.vsub e.position).normSq)
          * o.sqrt ((p.position.vsub e.position).normSq)
        = (p.position.vsub e.position).normSq →
      (p.position.vsub e.position).normSq < detectionRange * detectionRange →
      (updateEnemyAI o e p c delta).1.behavior = .alert
        ∧ (updateEnemyAI o e p c delta).1.alertTimer = 2)
    ∧ (e.behavior = .alert → evasiveHullThreshold ≤ c.enemyHealth.hull →
        e.alertTimer ≤ ((m : ℚ) + 1) * delta →
        (runAI o p delta (m + 1) (e, c)).1.behavior = .attack) := by
  constructor
  · intro hb hs0 hsq hrange
    have hL : o.sqrt ((p.position.vsub e.position).normSq) < detectionRange := by
      by_contra hcon
      push_neg at hcon
      have h2 : detectionRange * detectionRange
          ≤ o.sqrt ((p.position.vsub e.position).normSq)
              * o.sqrt ((p.position.vsub e.position).normSq) :=
        mul_le_mul hcon hcon (by norm_num [detectionRange]) hs0
      rw [hsq] at h2
      linarith
    exact updateEnemyAI_idle_detect o e p c delta hdestroyed hb hL
  · intro hb hhull htimer
    exact runAI_alert_to_attack o p delta m e c hb hdestroyed hhull htimer

/-- Concrete oracle for the C8 witness: the only length queried is 300. -/
def sampleAIOracle : AIOracle :=
  { sqrt := fun _ => 300, sin := fun _ => 0, cos := fun _ => 0,
    lookQuat := fun _ _ => Quat.identity, slerp := fun q _ _ => q, rand := 0, now := 0 }

/-- Concrete idle enemy at the origin for the C8 witness. -/
def sampleIdleEnemy : EnemyState :=
  { position := ⟨0, 0, 0⟩, quaternion := Quat.identity, behavior := .idle, speed := 0,
    phaserCooldown := 0, torpedoCooldown := 0, phaserFiring := false,
    torpedoJustFired := false, alertTimer := 0, orbitAngle := 0,
    orbitCenter := ⟨0, 0, 0⟩, orbitRadius := 60 }

/-- Witness for C8: with the player 300 units away (inside the 500-unit
detection range), one step takes the idle enemy to alert. -/
theorem enemy_alert_engagement_witness :
    (updateEnemyAI sampleAIOracle sampleIdleEnemy
        { createGameState with position := ⟨300, 0, 0⟩ } createCombatState 1).1.behavior
      = .alert :=
  ((enemy_alert_engagement sampleAIOracle sampleIdleEnemy
      { createGameState with position := ⟨300, 0, 0⟩ } createCombatState 1 0 rfl rfl).1
    rfl
    (by norm_num [sampleAIOracle])
    (by norm_num [sampleAIOracle, sampleIdleEnemy, Vec3.vsub, Vec3.normSq, createGameState])
    (by norm_num [sampleIdleEnemy, Vec3.vsub, Vec3.normSq, createGameState,
      detectionRange])).1

end Enterprise
